import Mathlib

/-!
Shallow embedding of the DriftDetector class from
examples/ml-pipeline/monitoring/collectors/drift_detector.py.

External, fallible operations of the source (scipy stats.ks_2samp,
IsolationForest fitting and scoring, the Prometheus push gateway, file
writes, chart rendering, CSV reading) are modelled as an environment of
functions returning Except: an error value models the call raising an
exception.  A try/except block of the source is modelled by a match on the
Except result at the same place in the control flow; a fallible call the
source does not wrap is a monadic bind, so its error propagates.
Prometheus Gauge.set is an in-memory assignment of a float to a gauge with
fixed, valid labels; it does not raise and is not tracked.  Logger calls
are modelled as LogEvent values returned alongside results.
-/

inductive LogLevel where
  | info
  | warning
  | error
  deriving DecidableEq, Repr

structure LogEvent where
  level : LogLevel
  msg : String
  deriving DecidableEq, Repr

/-- A Python runtime value as it appears in an observation. -/
inductive Value where
  | int (n : Int)
  | float (q : ℚ)
  | str (s : String)
  | null
  deriving DecidableEq, Repr

/-- The check isinstance(feature_value, (int, float)) of add_observation. -/
def Value.isNumeric : Value → Bool
  | .int _ => true
  | .float _ => true
  | _ => false

/-- A Python dict from feature names to lists of values, insertion-ordered. -/
abbrev FeatDict := List (String × List Value)

/-- Python membership test and lookup: name in d, d[name]. -/
def findVals : FeatDict → String → Option (List Value)
  | [], _ => none
  | (k, v) :: rest, name => if k = name then some v else findVals rest name

/-- Python dict assignment d[name] = vs: update in place, or append a new
key at the end of the insertion order. -/
def setVals : FeatDict → String → List Value → FeatDict
  | [], name, vs => [(name, vs)]
  | (k, v) :: rest, name, vs =>
      if k = name then (k, vs) :: rest else (k, v) :: setVals rest name vs

/-- Environment of external operations the detector calls.  An error result
models the underlying library call raising an exception. -/
structure Env where
  ks_2samp : List Value → List Value → Except String ℚ
  score_samples : List (String × List Value) → Except String ℚ
  push_to_gateway : Except String Unit
  log_write : String → Except String Unit
  read_csv : String → Except String (List (String × List Value))
  fit_forest : List (String × List Value) → Except String Unit
  file_write : String → String → Except String Unit
  makedirs : String → Except String Unit
  render_chart : String → Except String Unit
  timestamp : String

/-- The mutable state of a DriftDetector instance.  isolation_forest is
true when the field holds a model object (is not None). -/
structure DriftDetector where
  model_name : String
  model_version : String
  metrics_store : String
  drift_threshold : ℚ
  window_size : Nat
  reference_features : FeatDict
  reference_predictions : List Value
  current_features : FeatDict
  current_predictions : List Value
  isolation_forest : Bool
  deriving DecidableEq, Repr

/-- The drift_metrics dict built by detect_drift.  concept_drift is
initialized to 0.0 and never updated by the source. -/
structure DriftMetrics where
  feature_drift : List (String × ℚ)
  prediction_drift : ℚ
  concept_drift : ℚ
  anomaly_score : ℚ
  deriving DecidableEq, Repr

/-- buffer_size = min(100, self.window_size // 10) in _reset_current_data. -/
def bufferSize (window_size : Nat) : Nat := min 100 (window_size / 10)

/-- Python slice xs[-b:].  For b = 0 the slice index is -0 = 0, so the
whole list is kept; otherwise the last b elements (all of xs when b
exceeds its length). -/
def sliceLast {α : Type} (b : Nat) (xs : List α) : List α :=
  if b = 0 then xs else xs.drop (xs.length - b)

/-- One branch of _reset_current_data: keep xs[-b:] when len(xs) > b,
otherwise replace by the empty list. -/
def trimList {α : Type} (b : Nat) (xs : List α) : List α :=
  if b < xs.length then sliceLast b xs else []

/-- _reset_current_data: trim every per-feature sequence and the
prediction sequence. -/
def resetCurrentData (st : DriftDetector) : DriftDetector :=
  { st with
      current_features :=
        st.current_features.map
          (fun p => (p.1, trimList (bufferSize st.window_size) p.2)),
      current_predictions :=
        trimList (bufferSize st.window_size) st.current_predictions }

/-- The readiness condition of add_observation, line 175:
len(self.current_predictions) >= self.window_size. -/
def isReady (st : DriftDetector) : Bool :=
  decide (st.window_size ≤ st.current_predictions.length)

/-- _calculate_distribution_drift: the try block spans the whole body, so
the function is total; a failed test returns 0.0 with an error log. -/
def calculateDistributionDrift (env : Env) (referenceValues currentValues : List Value) :
    ℚ × List LogEvent :=
  match env.ks_2samp referenceValues currentValues with
  | .ok p => (1 - p, [])
  | .error e => (0, [⟨LogLevel.error, "Failed to calculate distribution drift: " ++ e⟩])

/-- The feature loop of detect_drift, lines 196-214: score each current
feature that also has a reference sequence and at least one value. -/
def featureDriftList (env : Env) (refF : FeatDict) (thr : ℚ) :
    FeatDict → List (String × ℚ) × List LogEvent
  | [] => ([], [])
  | (name, vals) :: rest =>
      let tail := featureDriftList env refF thr rest
      match findVals refF name with
      | some refVals =>
          if 0 < vals.length then
            let sd := calculateDistributionDrift env refVals vals
            let wlogs :=
              if thr < sd.1 then
                [⟨LogLevel.warning, "Detected significant drift in feature " ++ name⟩]
              else []
            ((name, sd.1) :: tail.1, sd.2 ++ wlogs ++ tail.2)
          else tail
      | none => tail

def featureDriftPass (env : Env) (st : DriftDetector) :
    List (String × ℚ) × List LogEvent :=
  featureDriftList env st.reference_features st.drift_threshold st.current_features

/-- Prediction drift, detect_drift lines 217-233. -/
def predictionDriftPass (env : Env) (st : DriftDetector) : ℚ × List LogEvent :=
  if 0 < st.reference_predictions.length ∧ 0 < st.current_predictions.length then
    let sd := calculateDistributionDrift env st.reference_predictions st.current_predictions
    (sd.1,
     sd.2 ++
       (if st.drift_threshold < sd.1 then
          [⟨LogLevel.warning, "Detected significant drift in predictions"⟩]
        else []))
  else (0, [])

/-- The feature matrix of the anomaly pass, detect_drift lines 239-243:
only features with at least window_size current values qualify, and only
their slice vals[-window_size:] is used. -/
def anomalyMatrix (st : DriftDetector) : List (String × List Value) :=
  (st.current_features.filter (fun p => decide (st.window_size ≤ p.2.length))).map
    (fun p => (p.1, sliceLast st.window_size p.2))

/-- The anomaly pass, detect_drift lines 236-262.  Skipped when
isolation_forest is None; the try/except around scoring makes a failure
yield the initial score 0.0 with an error log. -/
def anomalyBlock (env : Env) (st : DriftDetector) : Except String (ℚ × List LogEvent) :=
  if st.isolation_forest then
    match env.score_samples (anomalyMatrix st) with
    | .ok m =>
        let s := -m
        .ok (s,
          if (7 : ℚ)/10 < s then
            [⟨LogLevel.warning, "Detected anomalies in recent data"⟩]
          else [])
    | .error e => .ok (0, [⟨LogLevel.error, "Failed to calculate anomaly scores: " ++ e⟩])
  else .ok (0, [])

/-- The metrics push, detect_drift lines 265-273: only for the prometheus
store, and a push failure is caught and logged. -/
def pushBlock (env : Env) (st : DriftDetector) : Except String (List LogEvent) :=
  if st.metrics_store = "prometheus" then
    match env.push_to_gateway with
    | .ok _ => .ok []
    | .error e => .ok [⟨LogLevel.error, "Failed to push drift metrics to Prometheus: " ++ e⟩]
  else .ok []

/-- _log_drift_metrics: append one JSON line to the per-model log file; the
try block spans the body, so a write failure only produces an error log.
The serialized payload itself is not modelled. -/
def logDriftMetrics (env : Env) (st : DriftDetector) : List LogEvent :=
  match env.log_write ("logs/" ++ st.model_name ++ "_drift.jsonl") with
  | .ok _ => []
  | .error e => [⟨LogLevel.error, "Failed to log drift metrics: " ++ e⟩]

/-- detect_drift, lines 178-281: score features, predictions and
anomalies, push and log, then reset the current buffers and return the
metrics. -/
def detectDrift (env : Env) (st : DriftDetector) :
    Except String (DriftDetector × DriftMetrics × List LogEvent) :=
  match anomalyBlock env st with
  | .error e => .error e
  | .ok ab =>
      match pushBlock env st with
      | .error e => .error e
      | .ok pushLogs =>
          .ok (resetCurrentData st,
            ⟨(featureDriftPass env st).1, (predictionDriftPass env st).1, 0, ab.1⟩,
            (featureDriftPass env st).2 ++ (predictionDriftPass env st).2 ++ ab.2
              ++ pushLogs ++ logDriftMetrics env st)

/-- One feature update of add_observation, lines 164-169: append a numeric
value to its named sequence (creating the key if absent), drop a
non-numeric value silently. -/
def addFeatureValue (d : FeatDict) (name : String) (v : Value) : FeatDict :=
  if v.isNumeric then
    match findVals d name with
    | some vs => setVals d name (vs ++ [v])
    | none => setVals d name [v]
  else d

/-- The pure buffer update of add_observation, lines 163-172: fold the
feature dict updates and append the prediction unconditionally. -/
def ingestObservation (st : DriftDetector) (features : List (String × Value))
    (pred : Value) : DriftDetector :=
  { st with
      current_features :=
        features.foldl (fun d nv => addFeatureValue d nv.1 nv.2) st.current_features,
      current_predictions := st.current_predictions ++ [pred] }

/-- add_observation, lines 149-176: ingest, then run detect_drift when the
window is full (its returned metrics are discarded by the source). -/
def addObservation (env : Env) (st : DriftDetector) (features : List (String × Value))
    (pred : Value) : Except String (DriftDetector × List LogEvent) :=
  let st1 := ingestObservation st features pred
  if isReady st1 = true then
    match detectDrift env st1 with
    | .error e => .error e
    | .ok r => .ok (r.1, r.2.2)
  else .ok (st1, [])

/-- _train_anomaly_detector: the model object is assigned before fit, so
even a failed fit leaves isolation_forest non-None. -/
def trainAnomalyDetector (env : Env) (cols : FeatDict) : Bool × List LogEvent :=
  match env.fit_forest cols with
  | .ok _ => (true, [⟨LogLevel.info, "Trained anomaly detection model"⟩])
  | .error e => (true, [⟨LogLevel.error, "Failed to train anomaly detection model: " ++ e⟩])

/-- _load_reference_data, lines 113-134: the try block spans the body, so
a read failure leaves the state untouched and only logs an error. -/
def loadReferenceData (env : Env) (st : DriftDetector) (path : String) :
    DriftDetector × List LogEvent :=
  match env.read_csv path with
  | .error e => (st, [⟨LogLevel.error, "Failed to load reference data: " ++ e⟩])
  | .ok data =>
      let featureCols := data.filter (fun c => c.1 ≠ "prediction")
      let st1 :=
        { st with
            reference_features :=
              featureCols.foldl
                (fun (d : FeatDict) (c : String × List Value) => setVals d c.1 c.2)
                st.reference_features,
            current_features :=
              featureCols.foldl
                (fun (d : FeatDict) (c : String × List Value) => setVals d c.1 [])
                st.current_features }
      let st2 :=
        match data.find? (fun c => c.1 = "prediction") with
        | some c => { st1 with reference_predictions := c.2 }
        | none => st1
      let tr := trainAnomalyDetector env featureCols
      ({ st2 with isolation_forest := tr.1 },
       tr.2 ++ [⟨LogLevel.info, "Loaded reference data from " ++ path⟩])

/-- The field assignments of __init__ before any reference data is read. -/
def initState (mn mv ms : String) (thr : ℚ) (ws : Nat) : DriftDetector :=
  { model_name := mn, model_version := mv, metrics_store := ms,
    drift_threshold := thr, window_size := ws,
    reference_features := [], reference_predictions := [],
    current_features := [], current_predictions := [],
    isolation_forest := false }

/-- __init__, lines 34-81: build the initial state, load reference data
when a path is given, and log the initialization message. -/
def initDriftDetector (env : Env) (mn mv : String) (referencePath : Option String)
    (ms : String) (thr : ℚ) (ws : Nat) :
    Except String (DriftDetector × List LogEvent) :=
  match referencePath with
  | none =>
      .ok (initState mn mv ms thr ws,
        [⟨LogLevel.info, "Initialized drift detector for model: " ++ mn ++ " v" ++ mv⟩])
  | some p =>
      let r := loadReferenceData env (initState mn mv ms thr ws) p
      .ok (r.1,
        r.2 ++ [⟨LogLevel.info, "Initialized drift detector for model: " ++ mn ++ " v" ++ mv⟩])

/-- Severity class of a drift score, generate_drift_report lines 376-398. -/
def driftClass (thr score : ℚ) : String :=
  if thr < score then "drift-high"
  else if thr / 2 < score then "drift-medium"
  else "drift-low"

/-- Severity class of the anomaly score, lines 412-416. -/
def anomalyClass (score : ℚ) : String :=
  if (7 : ℚ)/10 < score then "drift-high"
  else if (1 : ℚ)/2 < score then "drift-medium"
  else "drift-low"

def htmlHeader (st : DriftDetector) : String :=
  "<html><head><title>Drift Report - " ++ st.model_name ++ " v" ++ st.model_version
    ++ "</title></head><body><h1>Model Drift Report</h1><h2>Feature Drift Summary</h2>"

def featureSection (name : String) (score : ℚ) (cls : String) : String :=
  "<h3>" ++ name ++ "</h3>Drift Score: " ++ toString score ++ " class " ++ cls

def predSection (thr score : ℚ) : String :=
  "<h2>Prediction Drift Summary</h2>Drift Score: " ++ toString score
    ++ " class " ++ driftClass thr score

def anomalySection (score : ℚ) : String :=
  "<h2>Anomaly Detection</h2>Anomaly Score: " ++ toString score
    ++ " class " ++ anomalyClass score

def htmlFooter : String := "</body></html>"

/-- report_path = output_path/model_name_drift_report_timestamp.html. -/
def reportPath (outputPath mn ts : String) : String :=
  outputPath ++ "/" ++ mn ++ "_drift_report_" ++ ts ++ ".html"

/-- The per-feature section writes of generate_drift_report, lines
375-390.  A write failure propagates to the enclosing try. -/
def writeFeatureSections (env : Env) (path : String) (thr : ℚ) :
    List (String × ℚ) → Except String Unit
  | [] => .ok ()
  | (name, score) :: rest =>
      match env.file_write path (featureSection name score (driftClass thr score)) with
      | .error e => .error e
      | .ok _ => writeFeatureSections env path thr rest

/-- The chart loop of generate_drift_report, lines 433-441: one chart per
current feature that also has a reference sequence. -/
def chartLoop (env : Env) (outputPath : String) (refF : FeatDict) :
    FeatDict → Except String Unit
  | [] => .ok ()
  | (name, _) :: rest =>
      match findVals refF name with
      | some _ =>
          match env.render_chart (outputPath ++ "/charts/" ++ name ++ "_distribution.png") with
          | .error e => .error e
          | .ok _ => chartLoop env outputPath refF rest
      | none => chartLoop env outputPath refF rest

/-- The body of the try block of generate_drift_report, lines 349-453:
write the report sections around three detect_drift calls (each of which
resets the buffers), then render the charts.  Any failure propagates to
the enclosing try; on success the accumulated detector logs are
returned. -/
def reportEffects (env : Env) (st : DriftDetector) (outputPath : String) :
    Except String (List LogEvent) := do
  let path := reportPath outputPath st.model_name env.timestamp
  let _ ← env.file_write path (htmlHeader st)
  let r1 ← detectDrift env st
  let _ ← writeFeatureSections env path st.drift_threshold r1.2.1.feature_drift
  let r2 ← detectDrift env r1.1
  let _ ← env.file_write path (predSection st.drift_threshold r2.2.1.prediction_drift)
  let r3 ← detectDrift env r2.1
  let _ ← env.file_write path (anomalySection r3.2.1.anomaly_score)
  let _ ← env.file_write path htmlFooter
  let _ ← env.makedirs (outputPath ++ "/charts")
  let _ ← chartLoop env outputPath r3.1.reference_features r3.1.current_features
  let _ ← env.render_chart (outputPath ++ "/charts/prediction_distribution.png")
  pure (r1.2.2 ++ r2.2.2 ++ r3.2.2)

/-- A Python try/except around body, with handler for the caught error. -/
def pyTry {α : Type} (body : Except String α) (handler : String → Except String α) :
    Except String α :=
  match body with
  | .ok a => .ok a
  | .error e => handler e

/-- generate_drift_report, lines 336-457: on success return the
timestamped report path, on any failure inside the try log an error and
return the empty string. -/
def generateDriftReport (env : Env) (st : DriftDetector) (outputPath : String) :
    Except String (String × List LogEvent) :=
  pyTry
    (Except.map
      (fun logs =>
        (reportPath outputPath st.model_name env.timestamp,
         logs ++ [⟨LogLevel.info,
           "Generated drift report at: "
             ++ reportPath outputPath st.model_name env.timestamp⟩]))
      (reportEffects env st outputPath))
    (fun e => .ok ("", [⟨LogLevel.error, "Failed to generate drift report: " ++ e⟩]))

/-- Whether an Except result is a normal return. -/
def exceptOk {ε α : Type} : Except ε α → Bool
  | .ok _ => true
  | .error _ => false

/-- An environment in which every external call succeeds. -/
def envOk : Env where
  ks_2samp := fun _ _ => .ok (1/2)
  score_samples := fun _ => .ok 0
  push_to_gateway := .ok ()
  log_write := fun _ => .ok ()
  read_csv := fun _ => .ok [("f1", [Value.float 0]), ("prediction", [Value.float 1])]
  fit_forest := fun _ => .ok ()
  file_write := fun _ _ => .ok ()
  makedirs := fun _ => .ok ()
  render_chart := fun _ => .ok ()
  timestamp := "20260101_000000"

/-- An environment in which every external call raises. -/
def envFail : Env where
  ks_2samp := fun _ _ => .error "fail"
  score_samples := fun _ => .error "fail"
  push_to_gateway := .error "fail"
  log_write := fun _ => .error "fail"
  read_csv := fun _ => .error "fail"
  fit_forest := fun _ => .error "fail"
  file_write := fun _ _ => .error "fail"
  makedirs := fun _ => .error "fail"
  render_chart := fun _ => .error "fail"
  timestamp := "20260101_000000"

/-- window_size 1000, so buffer bound 100, and exactly 100 predictions. -/
def stC4 : DriftDetector :=
  { initState "m" "v" "local" (1/20) 1000 with
      current_predictions := List.replicate 100 (Value.int 0) }

/-- window_size 10, so buffer bound 1; one prediction, one two-value feature. -/
def stW4 : DriftDetector :=
  { initState "m" "v" "local" (1/20) 10 with
      current_features := [("f", [Value.int 1, Value.int 2])],
      current_predictions := [Value.int 0] }

/-- window_size 5, so buffer bound 0, and a full window of 5 predictions. -/
def stC5 : DriftDetector :=
  { initState "m" "v" "local" (1/20) 5 with
      current_predictions := List.replicate 5 (Value.int 0) }

/-- window_size 20 with a full window of 20 predictions. -/
def stC6r : DriftDetector :=
  { initState "m" "v" "local" (1/20) 20 with
      current_predictions := List.replicate 20 (Value.int 0) }

/-- window_size 20 with an empty prediction buffer. -/
def stC6n : DriftDetector := initState "m" "v" "local" (1/20) 20

/-- window_size 20 with 19 predictions, one short of the window. -/
def stC6y : DriftDetector :=
  { initState "m" "v" "local" (1/20) 20 with
      current_predictions := List.replicate 19 (Value.int 0) }

/-- A detector whose anomaly model was never trained. -/
def stC8u : DriftDetector := initState "m" "v" "local" (1/20) 50

/-- A detector holding a (possibly unfit) anomaly model object. -/
def stC8t : DriftDetector :=
  { initState "m" "v" "local" (1/20) 50 with isolation_forest := true }

/-- window_size 5 with 4 predictions: the next observation fills the window. -/
def stC10c : DriftDetector :=
  { initState "m" "v" "local" (1/20) 5 with
      current_predictions := List.replicate 4 (Value.int 0) }

/-- window_size 20 with 19 predictions: the next observation fills the window. -/
def stC10w : DriftDetector :=
  { initState "m" "v" "local" (1/20) 20 with
      current_predictions := List.replicate 19 (Value.int 0) }

theorem findVals_setVals (d : FeatDict) (k : String) (vs : List Value) :
    findVals (setVals d k vs) k = some vs := by
  induction d with
  | nil => simp [setVals, findVals]
  | cons hd tl ih =>
      obtain ⟨k1, v1⟩ := hd
      by_cases h : k1 = k
      · simp [setVals, findVals, h]
      · simp [setVals, findVals, h, ih]

theorem anomalyBlock_ok (env : Env) (st : DriftDetector) :
    ∃ a, anomalyBlock env st = .ok a := by
  unfold anomalyBlock
  cases hb : st.isolation_forest
  · exact ⟨_, rfl⟩
  · cases hs : env.score_samples (anomalyMatrix st) <;> simp [hs]

theorem anomalyBlock_untrained (env : Env) (st : DriftDetector)
    (h : st.isolation_forest = false) : anomalyBlock env st = .ok (0, []) := by
  simp [anomalyBlock, h]

theorem anomalyBlock_failed (env : Env) (st : DriftDetector) (e : String)
    (h : env.score_samples (anomalyMatrix st) = .error e) :
    ∃ logs, anomalyBlock env st = .ok (0, logs) := by
  unfold anomalyBlock
  cases hb : st.isolation_forest
  · exact ⟨_, rfl⟩
  · simp [h]

theorem pushBlock_ok (env : Env) (st : DriftDetector) :
    ∃ p, pushBlock env st = .ok p := by
  unfold pushBlock
  by_cases h : st.metrics_store = "prometheus"
  · cases hp : env.push_to_gateway <;> simp [h, hp]
  · simp [h]

theorem detectDrift_ok (env : Env) (st : DriftDetector) :
    ∃ m logs, detectDrift env st = .ok (resetCurrentData st, m, logs) := by
  obtain ⟨a, ha⟩ := anomalyBlock_ok env st
  obtain ⟨p, hp⟩ := pushBlock_ok env st
  exact ⟨⟨(featureDriftPass env st).1, (predictionDriftPass env st).1, 0, a.1⟩,
    (featureDriftPass env st).2 ++ (predictionDriftPass env st).2 ++ a.2 ++ p
      ++ logDriftMetrics env st,
    by unfold detectDrift; rw [ha, hp]⟩

theorem detectDrift_anomaly_score (env : Env) (st : DriftDetector)
    (ab : ℚ × List LogEvent) (ha : anomalyBlock env st = .ok ab) :
    ∃ m logs, detectDrift env st = .ok (resetCurrentData st, m, logs)
      ∧ m.anomaly_score = ab.1 := by
  obtain ⟨p, hp⟩ := pushBlock_ok env st
  exact ⟨⟨(featureDriftPass env st).1, (predictionDriftPass env st).1, 0, ab.1⟩,
    (featureDriftPass env st).2 ++ (predictionDriftPass env st).2 ++ ab.2 ++ p
      ++ logDriftMetrics env st,
    by unfold detectDrift; rw [ha, hp], rfl⟩

theorem addObservation_ok (env : Env) (st : DriftDetector)
    (feats : List (String × Value)) (pred : Value) :
    ∃ r, addObservation env st feats pred = .ok r := by
  unfold addObservation
  by_cases h : isReady (ingestObservation st feats pred) = true
  · obtain ⟨m, logs, hd⟩ := detectDrift_ok env (ingestObservation st feats pred)
    simp [h, hd]
  · simp [h]

theorem report_result (env : Env) (st : DriftDetector) (out : String) :
    (∃ logs, generateDriftReport env st out
        = .ok (reportPath out st.model_name env.timestamp,
            logs ++ [⟨LogLevel.info,
              "Generated drift report at: " ++ reportPath out st.model_name env.timestamp⟩]))
  ∨ (∃ e, generateDriftReport env st out
        = .ok ("", [⟨LogLevel.error, "Failed to generate drift report: " ++ e⟩])) := by
  cases h : reportEffects env st out with
  | ok logs =>
      left
      exact ⟨logs, by unfold generateDriftReport; rw [h]; rfl⟩
  | error e =>
      right
      exact ⟨e, by unfold generateDriftReport; rw [h]; rfl⟩

theorem trimList_length_le {α : Type} (b : Nat) (hb : b ≠ 0) (xs : List α) :
    (trimList b xs).length ≤ b := by
  unfold trimList sliceLast
  split
  · simp [hb]
    omega
  · simp

/-- C1: for every detector state and environment, no call into
add_observation, detect_drift or generate_drift_report returns an
exception: every internal failure (statistical test, anomaly scoring,
metrics push, log write, report render) is caught and handled locally, so
each entry point yields a normal result. -/
theorem c1_no_uncaught_exceptions (env : Env) (st : DriftDetector)
    (feats : List (String × Value)) (pred : Value) (out : String) :
    exceptOk (addObservation env st feats pred) = true
  ∧ exceptOk (detectDrift env st) = true
  ∧ exceptOk (generateDriftReport env st out) = true := by
  refine ⟨?_, ?_, ?_⟩
  · obtain ⟨r, hr⟩ := addObservation_ok env st feats pred
    rw [hr]; rfl
  · obtain ⟨m, logs, hd⟩ := detectDrift_ok env st
    rw [hd]; rfl
  · rcases report_result env st out with ⟨logs, h⟩ | ⟨e, h⟩ <;> rw [h] <;> rfl

/-- C2 counterexample: with a reference file that cannot be read, detector
initialization returns normally (.ok, not an error): the load failure is
caught inside _load_reference_data and merely logged, the reference
containers stay empty, and no DataLoadError exists or is raised, so the
failure is not fatal at initialization. -/
theorem c2_counterexample :
    initDriftDetector envFail "m" "v" (some "missing.csv") "local" (1/20) 1000
      = .ok (initState "m" "v" "local" (1/20) 1000,
          [⟨LogLevel.error, "Failed to load reference data: fail"⟩,
           ⟨LogLevel.info, "Initialized drift detector for model: m vv"⟩])
  ∧ exceptOk (initDriftDetector envFail "m" "v" (some "missing.csv") "local" (1/20) 1000)
      = true := by
  exact ⟨rfl, rfl⟩

/-- C2 amended: when the reference data file at the given path is missing
or malformed, the read failure is caught inside the loader and logged at
error level; initialization completes normally with empty reference data
and an untrained anomaly model. -/
theorem c2_load_failure_nonfatal (env : Env) (mn mv ms path e : String)
    (thr : ℚ) (ws : Nat) (h : env.read_csv path = .error e) :
    initDriftDetector env mn mv (some path) ms thr ws
      = .ok (initState mn mv ms thr ws,
          [⟨LogLevel.error, "Failed to load reference data: " ++ e⟩,
           ⟨LogLevel.info, "Initialized drift detector for model: " ++ mn ++ " v" ++ mv⟩]) := by
  simp [initDriftDetector, loadReferenceData, h]

/-- C2 witness: the amended statement at a concrete failing environment. -/
theorem c2_load_failure_nonfatal_witness :
    initDriftDetector envFail "m" "v" (some "ref.csv") "local" (1/20) 1000
      = .ok (initState "m" "v" "local" (1/20) 1000,
          [⟨LogLevel.error, "Failed to load reference data: " ++ "fail"⟩,
           ⟨LogLevel.info, "Initialized drift detector for model: " ++ "m" ++ " v" ++ "v"⟩]) :=
  c2_load_failure_nonfatal envFail "m" "v" "local" "ref.csv" "fail" (1/20) 1000 rfl

/-- C3 counterexample: when the statistical test fails, the drift
calculation returns 0.0 but the message it logs is at error level, not
warning level, refuting the claim that a warning is logged. -/
theorem c3_counterexample :
    calculateDistributionDrift envFail [] []
      = (0, [⟨LogLevel.error, "Failed to calculate distribution drift: fail"⟩])
  ∧ ((calculateDistributionDrift envFail [] []).2.all
        (fun ev => ev.level != LogLevel.warning)) = true := by
  exact ⟨rfl, rfl⟩

/-- C3 amended: the drift score equals 1 minus the p-value of the
two-sample Kolmogorov-Smirnov test and lies in [0,1] whenever the test
succeeds with a p-value in [0,1]; in degenerate cases (the test raising,
e.g. on an empty current sample) it returns 0.0 and logs an error-level
message instead of raising. -/
theorem c3_drift_score (env : Env) (ref cur : List Value) :
    (∀ p : ℚ, env.ks_2samp ref cur = .ok p → 0 ≤ p → p ≤ 1 →
        calculateDistributionDrift env ref cur = (1 - p, [])
      ∧ 0 ≤ (calculateDistributionDrift env ref cur).1
      ∧ (calculateDistributionDrift env ref cur).1 ≤ 1)
  ∧ (∀ e : String, env.ks_2samp ref cur = .error e →
        calculateDistributionDrift env ref cur
          = (0, [⟨LogLevel.error, "Failed to calculate distribution drift: " ++ e⟩])) := by
  constructor
  · intro p hp h0 h1
    have hc : calculateDistributionDrift env ref cur = (1 - p, []) := by
      unfold calculateDistributionDrift
      rw [hp]
    refine ⟨hc, ?_, ?_⟩ <;> rw [hc] <;> simp <;> linarith
  · intro e he
    unfold calculateDistributionDrift
    rw [he]

/-- C3 witness: the amended statement at concrete environments, one in
which the test returns p = 1/2 and one in which it raises. -/
theorem c3_drift_score_witness :
    calculateDistributionDrift envOk [] [] = (1 - (1 : ℚ)/2, [])
  ∧ calculateDistributionDrift envFail [] []
      = (0, [⟨LogLevel.error, "Failed to calculate distribution drift: " ++ "fail"⟩]) :=
  ⟨((c3_drift_score envOk [] []).1 (1/2) rfl (by norm_num) (by norm_num)).1,
   (c3_drift_score envFail [] []).2 "fail" rfl⟩

/-- C4 counterexample: with window_size 1000 the buffer bound is 100, and
a prediction sequence of length exactly 100 is cleared by the trim, not
retained unchanged: retention requires strictly greater length. -/
theorem c4_counterexample :
    stC4.current_predictions.length = bufferSize stC4.window_size
  ∧ stC4.current_predictions.length = 100
  ∧ (resetCurrentData stC4).current_predictions = [] :=
  ⟨rfl, rfl, rfl⟩

/-- C4 amended: for window_size at least 10 (so the buffer bound is at
least 1), the post-scoring trim truncates every sequence strictly longer
than min(100, window_size // 10) to its last that-many elements, and
clears every sequence of length at most that bound; in particular a
sequence of length exactly the bound is cleared, not retained. -/
theorem c4_trim_boundary (st : DriftDetector) (h : 10 ≤ st.window_size) :
    ((resetCurrentData st).current_predictions =
        if bufferSize st.window_size < st.current_predictions.length
        then st.current_predictions.drop
               (st.current_predictions.length - bufferSize st.window_size)
        else [])
  ∧ ((resetCurrentData st).current_features =
        st.current_features.map (fun p =>
          (p.1, if bufferSize st.window_size < p.2.length
                then p.2.drop (p.2.length - bufferSize st.window_size)
                else [])))
  ∧ (st.current_predictions.length = bufferSize st.window_size →
        (resetCurrentData st).current_predictions = []) := by
  have hb : bufferSize st.window_size ≠ 0 := by
    unfold bufferSize
    omega
  refine ⟨?_, ?_, ?_⟩
  · simp [resetCurrentData, trimList, sliceLast, hb]
  · simp [resetCurrentData, trimList, sliceLast, hb]
  · intro hlen
    simp [resetCurrentData, trimList, hlen]

/-- C4 witness: at window_size 10 the bound is 1 and the one-element
prediction buffer (length exactly the bound) is cleared. -/
theorem c4_trim_boundary_witness :
    10 ≤ stW4.window_size ∧ (resetCurrentData stW4).current_predictions = [] :=
  ⟨by decide, (c4_trim_boundary stW4 (by decide)).2.2 (by decide)⟩

/-- C5 evaluation at the failing input: with window_size 5 the buffer
bound min(100, 5 // 10) is 0, but a 5-element prediction buffer survives
the trim untouched, because the Python slice [-0:] keeps the whole list;
the claimed invariant length at most the bound is violated. -/
theorem c5_trim_bound_violation :
    bufferSize stC5.window_size = 0
  ∧ (resetCurrentData stC5).current_predictions = stC5.current_predictions
  ∧ (resetCurrentData stC5).current_predictions.length = 5
  ∧ ¬ ((resetCurrentData stC5).current_predictions.length
        ≤ bufferSize stC5.window_size) :=
  ⟨rfl, rfl, rfl, by decide⟩

/-- C6: the readiness condition that triggers a drift check is exactly
prediction-sequence length at least window_size; after a trim that leaves
the prediction sequence below window_size it is false again; when it is
false after ingesting, add_observation only appends; when it is true,
add_observation runs the drift check and returns the trimmed state. -/
theorem c6_readiness (env : Env) (st : DriftDetector)
    (feats : List (String × Value)) (pred : Value) :
    (isReady st = true ↔ st.window_size ≤ st.current_predictions.length)
  ∧ ((resetCurrentData st).current_predictions.length < st.window_size →
        isReady (resetCurrentData st) = false)
  ∧ (isReady (ingestObservation st feats pred) = false →
        addObservation env st feats pred = .ok (ingestObservation st feats pred, []))
  ∧ (isReady (ingestObservation st feats pred) = true →
        Except.map (fun r => r.1) (addObservation env st feats pred)
          = .ok (resetCurrentData (ingestObservation st feats pred))) := by
  refine ⟨?_, ?_, ?_, ?_⟩
  · simp [isReady]
  · intro hlt
    simp only [isReady, decide_eq_false_iff_not]
    have hw : (resetCurrentData st).window_size = st.window_size := rfl
    rw [hw]
    omega
  · intro h3
    simp [addObservation, h3]
  · intro h4
    obtain ⟨m, logs, hd⟩ := detectDrift_ok env (ingestObservation st feats pred)
    simp [addObservation, h4, hd, Except.map]

/-- C6 witness: readiness is false after a trim from a full 20-window,
add_observation below the window only appends, and at the window boundary
it runs the drift check and trims. -/
theorem c6_readiness_witness :
    isReady (resetCurrentData stC6r) = false
  ∧ addObservation envOk stC6n [] (Value.int 0)
      = .ok (ingestObservation stC6n [] (Value.int 0), [])
  ∧ Except.map (fun r => r.1) (addObservation envOk stC6y [] (Value.int 0))
      = .ok (resetCurrentData (ingestObservation stC6y [] (Value.int 0))) :=
  ⟨(c6_readiness envOk stC6r [] (Value.int 0)).2.1 (by decide),
   (c6_readiness envOk stC6n [] (Value.int 0)).2.2.1 (by decide),
   (c6_readiness envOk stC6y [] (Value.int 0)).2.2.2 (by decide)⟩

/-- C7: ingesting an observation appends the prediction unconditionally,
whatever its type; a non-numeric feature value leaves the feature dict
unchanged (silently dropped), and a numeric feature value is appended to
its named sequence (created when absent). -/
theorem c7_numeric_filter (st : DriftDetector) (feats : List (String × Value))
    (pred : Value) (d : FeatDict) (name : String) (v : Value) :
    (ingestObservation st feats pred).current_predictions
        = st.current_predictions ++ [pred]
  ∧ (v.isNumeric = false → addFeatureValue d name v = d)
  ∧ (v.isNumeric = true →
        findVals (addFeatureValue d name v) name
          = some ((findVals d name).getD [] ++ [v])) := by
  refine ⟨rfl, ?_, ?_⟩
  · intro hv
    simp [addFeatureValue, hv]
  · intro hv
    cases hf : findVals d name with
    | some vs => simp [addFeatureValue, hv, hf, findVals_setVals]
    | none => simp [addFeatureValue, hv, hf, findVals_setVals]

/-- C7 witness: a string prediction is appended unconditionally, a string
feature value is dropped, and an integer feature value is appended. -/
theorem c7_numeric_filter_witness :
    (ingestObservation stC8u [("a", Value.int 3)] (Value.str "p")).current_predictions
        = stC8u.current_predictions ++ [Value.str "p"]
  ∧ addFeatureValue [] "a" (Value.str "x") = []
  ∧ findVals (addFeatureValue [("a", [Value.int 1])] "a" (Value.int 3)) "a"
        = some ((findVals [("a", [Value.int 1])] "a").getD [] ++ [Value.int 3]) :=
  ⟨(c7_numeric_filter stC8u [("a", Value.int 3)] (Value.str "p") [] "a" (Value.str "x")).1,
   (c7_numeric_filter stC8u [("a", Value.int 3)] (Value.str "p") [] "a" (Value.str "x")).2.1 rfl,
   (c7_numeric_filter stC8u [("a", Value.int 3)] (Value.str "p")
      [("a", [Value.int 1])] "a" (Value.int 3)).2.2 rfl⟩

/-- C8: the anomaly feature matrix contains exactly the features with at
least window_size current observations, each reduced to its last
window_size values; when the anomaly model is untrained the drift check
returns normally with anomaly score 0.0, and likewise when scoring the
matrix raises (as it does when no complete feature is available). -/
theorem c8_anomaly_subset (env : Env) (st : DriftDetector) :
    (∀ name vals, (name, vals) ∈ anomalyMatrix st ↔
        ∃ cur, (name, cur) ∈ st.current_features
          ∧ st.window_size ≤ cur.length
          ∧ vals = sliceLast st.window_size cur)
  ∧ (st.isolation_forest = false →
        Except.map (fun r => r.2.1.anomaly_score) (detectDrift env st) = .ok 0)
  ∧ (∀ e, env.score_samples (anomalyMatrix st) = .error e →
        Except.map (fun r => r.2.1.anomaly_score) (detectDrift env st) = .ok 0) := by
  refine ⟨?_, ?_, ?_⟩
  · intro name vals
    constructor
    · intro hm
      unfold anomalyMatrix at hm
      obtain ⟨p, hp, hfp⟩ := List.mem_map.mp hm
      obtain ⟨n, c⟩ := p
      obtain ⟨hmem, hfilt⟩ := List.mem_filter.mp hp
      injection hfp with h1 h2
      subst h1
      subst h2
      exact ⟨c, hmem, of_decide_eq_true hfilt, rfl⟩
    · rintro ⟨cur, hmem, hlen, rfl⟩
      unfold anomalyMatrix
      exact List.mem_map.mpr
        ⟨(name, cur), List.mem_filter.mpr ⟨hmem, decide_eq_true hlen⟩, rfl⟩
  · intro hu
    obtain ⟨m, logs, hd, hs⟩ :=
      detectDrift_anomaly_score env st (0, []) (anomalyBlock_untrained env st hu)
    rw [hd]
    simp [Except.map, hs]
  · intro e he
    obtain ⟨alogs, ha⟩ := anomalyBlock_failed env st e he
    obtain ⟨m, logs, hd, hs⟩ := detectDrift_anomaly_score env st (0, alogs) ha
    rw [hd]
    simp [Except.map, hs]

/-- C8 witness: with every external call failing, a detector without a
trained model and a detector whose scoring raises both complete the drift
check with anomaly score 0. -/
theorem c8_anomaly_subset_witness :
    Except.map (fun r => r.2.1.anomaly_score) (detectDrift envFail stC8u) = .ok 0
  ∧ Except.map (fun r => r.2.1.anomaly_score) (detectDrift envFail stC8t) = .ok 0 :=
  ⟨(c8_anomaly_subset envFail stC8u).2.1 rfl,
   (c8_anomaly_subset envFail stC8t).2.2 "fail" rfl⟩

/-- C9: report generation returns normally for every environment and
state: either every render step succeeded and the timestamped report path
is returned (with an info log recording it), or some step failed and the
empty string is returned with an error log; it never raises. -/
theorem c9_report_path_or_empty (env : Env) (st : DriftDetector) (out : String) :
    (∃ logs, generateDriftReport env st out
        = .ok (reportPath out st.model_name env.timestamp,
            logs ++ [⟨LogLevel.info,
              "Generated drift report at: " ++ reportPath out st.model_name env.timestamp⟩]))
  ∨ (∃ e, generateDriftReport env st out
        = .ok ("", [⟨LogLevel.error, "Failed to generate drift report: " ++ e⟩])) :=
  report_result env st out

/-- C10 counterexample: with window_size 5 (which is strictly greater
than the buffer bound 0), filling the window triggers the drift check,
but the trim keeps all 5 predictions (Python slice [-0:]), so after
add_observation returns the prediction sequence length equals window_size
instead of being strictly below it. -/
theorem c10_counterexample :
    bufferSize stC10c.window_size < stC10c.window_size
  ∧ stC10c.window_size = 5
  ∧ Except.map (fun r => r.1.current_predictions.length)
        (addObservation envOk stC10c [] (Value.int 0)) = .ok 5 := by
  refine ⟨by decide, rfl, ?_⟩
  rfl

/-- C10 amended: every drift check returns the state trimmed by
_reset_current_data, whatever the reference data; and for window_size at
least 10, after any add_observation call returns, the prediction sequence
is strictly shorter than window_size. -/
theorem c10_trim_after_detect (env : Env) (st : DriftDetector)
    (feats : List (String × Value)) (pred : Value) (h : 10 ≤ st.window_size) :
    Except.map (fun r => r.1) (detectDrift env st) = .ok (resetCurrentData st)
  ∧ (∀ st1 logs1, addObservation env st feats pred = .ok (st1, logs1) →
        st1.current_predictions.length < st.window_size) := by
  constructor
  · obtain ⟨m, logs, hd⟩ := detectDrift_ok env st
    rw [hd]
    rfl
  · intro st1 logs1 heq
    by_cases hr : isReady (ingestObservation st feats pred) = true
    · obtain ⟨m, logs, hd⟩ := detectDrift_ok env (ingestObservation st feats pred)
      have ha : addObservation env st feats pred
          = .ok (resetCurrentData (ingestObservation st feats pred), logs) := by
        simp [addObservation, hr, hd]
      rw [ha] at heq
      injection heq with heq2
      injection heq2 with h1 h2
      subst h1
      have hb : bufferSize st.window_size ≠ 0 := by
        unfold bufferSize
        omega
      have hlen := trimList_length_le (bufferSize st.window_size) hb
        (ingestObservation st feats pred).current_predictions
      have hbw : bufferSize st.window_size < st.window_size := by
        unfold bufferSize
        omega
      exact lt_of_le_of_lt hlen hbw
    · have ha : addObservation env st feats pred
          = .ok (ingestObservation st feats pred, []) := by
        simp [addObservation, hr]
      rw [ha] at heq
      injection heq with heq2
      injection heq2 with h1 h2
      subst h1
      have hn : ¬ (st.window_size
          ≤ (ingestObservation st feats pred).current_predictions.length) := by
        simpa [isReady] using hr
      omega

/-- C10 witness: the amended statement at window_size 20 with 19 buffered
predictions and a succeeding environment. -/
theorem c10_trim_after_detect_witness :
    10 ≤ stC10w.window_size
  ∧ Except.map (fun r => r.1) (detectDrift envOk stC10w) = .ok (resetCurrentData stC10w)
  ∧ (resetCurrentData (ingestObservation stC10w [] (Value.int 0))).current_predictions.length
      < stC10w.window_size := by
  refine ⟨by decide, (c10_trim_after_detect envOk stC10w [] (Value.int 0) (by decide)).1, ?_⟩
  exact (c10_trim_after_detect envOk stC10w [] (Value.int 0) (by decide)).2
    (resetCurrentData (ingestObservation stC10w [] (Value.int 0))) [] rfl
